import Mathlib

/-!
Verification development for the NEM12 dashboard core (src/app.py).

The Python source is shallowly embedded below.  Raw CSV rows become
`RawRow` (record-type column already coerced to integer by the loader,
remaining cells kept as strings); the record-block locator, reshaper,
series builder, aggregator, outlier detector and forecaster are
translated as executable functions over lists, with ℚ for numeric cell
values and ℕ for abstract calendar days.
-/

/-- A raw CSV row after the loader (app.py lines 17-18): column 0 is
coerced to an integer record code; the cells list holds the whole row as
strings (cell 0 the record code, cell 1 the date, cell 3 the channel
marker, cells 2..49 the 48 interval values). -/
structure RawRow where
  record : Int
  cells : List String
deriving DecidableEq

/-- Errors of the block-locating phase (app.py lines 22-24 and 34-36). -/
inductive PipelineError
  | insufficientHeaders
  | missingChannelTag
deriving DecidableEq

/-- Indices of all rows whose record code is 200 (app.py line 21). -/
def headerIdxs (raw : List RawRow) : List Nat :=
  (raw.enum.filter (fun p => decide (p.2.record = 200))).map Prod.fst

deriving instance DecidableEq for Except

/-- Whether a character is stripped by the Python str.strip call
(space, tab, line feed, carriage return). -/
def isStripped (c : Char) : Bool :=
  decide (c = ' ' ∨ c = Char.ofNat 9 ∨ c = Char.ofNat 10 ∨ c = Char.ofNat 13)

/-- Python str.strip: drop leading and trailing whitespace. -/
def pyStrip (s : String) : String :=
  ⟨((s.data.dropWhile isStripped).reverse.dropWhile isStripped).reverse⟩

/-- Upper-case a single ASCII character. -/
def upperChar (c : Char) : Char :=
  if 97 ≤ c.toNat ∧ c.toNat ≤ 122 then Char.ofNat (c.toNat - 32) else c

/-- Python str.upper (over the ASCII range used by the channel tags). -/
def pyUpper (s : String) : String :=
  ⟨s.data.map upperChar⟩

/-- The channel marker of row i: column D (0-based cell index 3),
stripped and upper-cased (app.py line 29). -/
def markerOf (raw : List RawRow) (i : Nat) : String :=
  pyUpper (pyStrip ((raw.getD i ⟨0, []⟩).cells.getD 3 ""))

/-- One step of the classification loop of app.py lines 28-33: a header
tagged E1 overwrites the consumption index, a header tagged B1 overwrites
the generation index, anything else leaves the accumulator unchanged. -/
def tagStep (raw : List RawRow) (acc : Option Nat × Option Nat) (i : Nat) :
    Option Nat × Option Nat :=
  if markerOf raw i = "E1" then (some i, acc.2)
  else if markerOf raw i = "B1" then (acc.1, some i)
  else acc

/-- The classification loop of app.py lines 27-33: fold over all header
indices, recording the last header tagged E1 and the last tagged B1. -/
def classifyHeaders (raw : List RawRow) : Option Nat × Option Nat :=
  (headerIdxs raw).foldl (tagStep raw) (none, none)

/-- Where a block ends: the first header index strictly after the given
index, or the table length (app.py lines 39-44). -/
def nextHdr (raw : List RawRow) (after : Nat) : Nat :=
  ((headerIdxs raw ++ [raw.length]).find? (fun h => decide (after < h))).getD raw.length

/-- The block locator (app.py lines 21-48, tagged strategy): fail with
insufficientHeaders when fewer than two record-200 rows exist, fail with
missingChannelTag when the E1 or the B1 tag is absent, otherwise return
the two half-open row ranges (header index + 1, next header or table
end), consumption first. -/
def locateBlocks (raw : List RawRow) :
    Except PipelineError ((Nat × Nat) × (Nat × Nat)) :=
  if (headerIdxs raw).length < 2 then .error .insufficientHeaders
  else
    match classifyHeaders raw with
    | (some e1, some b1) =>
        .ok ((e1 + 1, nextHdr raw e1), (b1 + 1, nextHdr raw b1))
    | _ => .error .missingChannelTag

/-- Modelled from the spec: the positional classification strategy
(spec section 4.1) has no implementation in src/app.py, which only ships
the tagged strategy; per the spec the first header marker starts the
consumption block and the second starts the generation block, each block
running from its header index + 1 (spec section 3) to the next boundary;
the generation block ends at the third header marker if one exists, else
after the fixed 300-row span or the end of the table. -/
def positionalBlocks (raw : List RawRow) :
    Except PipelineError ((Nat × Nat) × (Nat × Nat)) :=
  match headerIdxs raw with
  | h1 :: h2 :: rest =>
      let genEnd :=
        match rest with
        | h3 :: _ => h3
        | [] => min (h2 + 1 + 300) raw.length
      .ok ((h1 + 1, h2), (h2 + 1, genEnd))
  | _ => .error .insufficientHeaders

/-- The numeric value of a list of decimal digit characters. -/
def digitsVal (l : List Char) : Nat :=
  l.foldl (fun n c => 10 * n + (c.toNat - 48)) 0

/-- Parse a date cell in the fixed 8-digit year-month-day format
(pandas to_datetime with format YMD and errors coerce, app.py line 56);
an unparseable cell yields none.  Dates are kept as the 8-digit number,
which preserves distinctness and chronological order. -/
def parseDate (s : String) : Option Nat :=
  let t := pyStrip s
  if t.data.length = 8 ∧ t.data.all Char.isDigit then some (digitsVal t.data)
  else none

/-- Parse an interval cell as a numeric value (pandas to_numeric with
errors coerce, app.py line 61): optional sign, integer part, optional
dot and decimal part; anything else yields none. -/
def parseRat (s : String) : Option ℚ :=
  let t := (pyStrip s).data
  let sgn : ℚ := if t.head? = some '-' then -1 else 1
  let body := if t.head? = some '-' ∨ t.head? = some '+' then t.tail else t
  let ip := body.takeWhile (fun c => decide (c ≠ '.'))
  match body.dropWhile (fun c => decide (c ≠ '.')) with
  | [] =>
      if ip ≠ [] ∧ ip.all Char.isDigit then
        some (sgn * (digitsVal ip : ℚ))
      else none
  | _ :: fp =>
      if (ip ≠ [] ∨ fp ≠ []) ∧ ip.all Char.isDigit ∧ fp.all Char.isDigit then
        some (sgn * ((digitsVal ip : ℚ) + (digitsVal fp : ℚ) / (10 : ℚ) ^ fp.length))
      else none

/-- The 48 canonical half-hour labels 00:00, 00:30, ..., 23:30
(app.py line 51), a process-wide constant. -/
def twoDigits (n : Nat) : String :=
  ⟨[Char.ofNat (48 + n / 10), Char.ofNat (48 + n % 10)]⟩

/-- One half-hour label in the hh:mm form of app.py line 51. -/
def slotLabel (h m : Nat) : String :=
  twoDigits h ++ ":" ++ twoDigits m

/-- All 48 half-hour labels in canonical order (app.py line 51). -/
def time_headers : List String :=
  (List.range 24).flatMap (fun h => [slotLabel h 0, slotLabel h 30])

/-- One row of a ReshapedBlock (app.py lines 50-56): the date cell after
to_datetime coercion (none when unparseable) and the 48 interval cells
after to_numeric coercion (none when unparseable). -/
structure ReshapedRow where
  date : Option Nat
  slots : List (Option ℚ)
deriving DecidableEq

/-- Reshape one raw row (app.py lines 50-56): cell 1 becomes the date,
cells 2..49 the 48 interval slots.  A cell absent from a short row is
treated as unparseable. -/
def reshapeRow (r : RawRow) : ReshapedRow :=
  ⟨parseDate (r.cells.getD 1 ""), (List.range 48).map (fun i => parseRat (r.cells.getD (2 + i) ""))⟩

/-- fillna(0) over the interval columns (app.py line 61): a missing
value is coerced to zero. -/
def fillSlots (slots : List (Option ℚ)) : List ℚ :=
  slots.map (fun o => o.getD 0)

/-- Daily_kWh of one row (app.py line 62): the sum of the 48 interval
columns after fillna(0). -/
def rowDailyKWh (r : ReshapedRow) : ℚ :=
  (fillSlots r.slots).sum

/-- Daily_Avg_kWh of one row (app.py line 63): the pandas mean of the
interval columns, which after fillna(0) is the sum over the column
count. -/
def rowDailyAvg (r : ReshapedRow) : ℚ :=
  (fillSlots r.slots).sum / ((fillSlots r.slots).length : ℚ)

/-- dropna on the Date column (app.py line 60): rows whose date failed
to parse are dropped. -/
def keptRows (rows : List ReshapedRow) : List ReshapedRow :=
  rows.filter (fun r => r.date.isSome)

/-- The DailySeries built by prepare (app.py lines 60-63): one entry per
retained row, carrying (date, Daily_kWh, Daily_Avg_kWh). -/
def prepareDaily (rows : List ReshapedRow) : List (Nat × ℚ × ℚ) :=
  (keptRows rows).map (fun r => (r.date.getD 0, rowDailyKWh r, rowDailyAvg r))

/-- The long rows contributed by one retained row: the melt of app.py
lines 64-69 pairs each half-hour label with the value of that column.
After fillna(0) no kWh value is missing, so the dropna on kWh retains
every row; pandas melts column-major, but every property below is
invariant under row order so the rows are listed day-major here.  The
Datetime combination of lines 70-74 always succeeds for a valid date and
a canonical label, so the final dropna also retains every row; the
timestamp is carried as the (date, label) pair itself. -/
def rowLong (r : ReshapedRow) : List (Nat × String × ℚ) :=
  (time_headers.zip (fillSlots r.slots)).map (fun p => (r.date.getD 0, p.1, p.2))

/-- The LongSeries built by prepare (app.py lines 64-74). -/
def prepareLong (rows : List ReshapedRow) : List (Nat × String × ℚ) :=
  (keptRows rows).flatMap rowLong

/-- The sum of the kWh values of the LongSeries rows of one date. -/
def longSumAt (rows : List ReshapedRow) (d : Nat) : ℚ :=
  (((prepareLong rows).filter (fun x => decide (x.1 = d))).map (fun x => x.2.2)).sum

/-- The sum of the non-missing interval values of one row. -/
def nonMissingSum (r : ReshapedRow) : ℚ :=
  (r.slots.filterMap id).sum

/-- The mean of the kWh values observed at one time label, none when the
label has no observations (the groupby mean of app.py line 117). -/
def groupMean (long : List (Nat × String × ℚ)) (t : String) : Option ℚ :=
  let vals := (long.filter (fun x => decide (x.2.1 = t))).map (fun x => x.2.2)
  if vals.isEmpty then none else some (vals.sum / (vals.length : ℚ))

/-- The time-of-day average table (app.py lines 117-118): the per-label
group means reindexed by the canonical 48-label list, absent labels
becoming missing entries. -/
def timeOfDayAvg (long : List (Nat × String × ℚ)) : List (String × Option ℚ) :=
  time_headers.map (fun t => (t, groupMean long t))

/-- The daily-total series keyed by date (the groupby Date sum of
Daily_kWh, app.py lines 218-219 and 252-253), one entry per distinct
date in first-occurrence order. -/
def groupSumByDate (daily : List (Nat × ℚ × ℚ)) : List (Nat × ℚ) :=
  ((daily.map Prod.fst).dedup).map
    (fun d => (d, ((daily.filter (fun e => decide (e.1 = d))).map (fun e => e.2.1)).sum))

/-- The sample mean of a daily-total series (pandas mean,
app.py lines 221-222). -/
def sampleMean (xs : List ℚ) : ℚ :=
  xs.sum / (xs.length : ℚ)

/-- The sample variance of a daily-total series (the square of the
pandas std, which divides by length - 1, app.py lines 221-222). -/
def sampleVar (xs : List ℚ) : ℚ :=
  (xs.map (fun x => (x - sampleMean xs) ^ 2)).sum / ((xs.length - 1 : ℕ) : ℚ)

/-- The outlier test of app.py lines 221-224: the z-score of a value is
its deviation from the mean over the standard deviation, and a day is
flagged when the absolute z-score exceeds 3.  Squaring both sides keeps
the test inside ℚ: |v - mean| exceeds 3 std exactly when the squared
deviation exceeds 9 var (proved below against the square-root form). -/
def isOutlier (xs : List ℚ) (v : ℚ) : Bool :=
  decide (9 * sampleVar xs < (v - sampleMean xs) ^ 2)

/-- The outlier dates of a daily-total series (app.py lines 223-224). -/
def outlierDates (daily : List (Nat × ℚ)) : List Nat :=
  (daily.filter (fun p => isOutlier (daily.map Prod.snd) p.2)).map Prod.fst

/-- Everything the core produces for the presentation layer, per
channel, besides the forecast (which also consumes two external model
fits and is modelled separately as forecastTab). -/
structure PipelineOutput where
  dailyCons : List (Nat × ℚ × ℚ)
  dailyGen : List (Nat × ℚ × ℚ)
  longCons : List (Nat × String × ℚ)
  longGen : List (Nat × String × ℚ)
  touCons : List (String × Option ℚ)
  touGen : List (String × Option ℚ)
  dailyTotCons : List (Nat × ℚ)
  dailyTotGen : List (Nat × ℚ)
  outlierCons : List Nat
  outlierGen : List Nat
deriving DecidableEq

/-- Materialise a half-open row range of the raw table and reshape it
(app.py lines 47-56). -/
def sliceBlock (raw : List RawRow) (se : Nat × Nat) : List ReshapedRow :=
  ((raw.drop se.1).take (se.2 - se.1)).map reshapeRow

/-- The whole core pipeline: locate the two blocks, reshape them, build
the daily and long series, the time-of-day averages, the daily totals
and the outlier sets (app.py lines 21-77, 117-118, 217-224).  A block
location error aborts everything downstream (st.stop in the source). -/
def runPipeline (raw : List RawRow) : Except PipelineError PipelineOutput := do
  let blocks ← locateBlocks raw
  let cons := sliceBlock raw blocks.1
  let gen := sliceBlock raw blocks.2
  let dtc := groupSumByDate (prepareDaily cons)
  let dtg := groupSumByDate (prepareDaily gen)
  pure ⟨prepareDaily cons, prepareDaily gen, prepareLong cons, prepareLong gen,
        timeOfDayAvg (prepareLong cons), timeOfDayAvg (prepareLong gen),
        dtc, dtg, outlierDates dtc, outlierDates dtg⟩

/-- The maximum of a list of dates, 0 on the empty list
(the index max of app.py line 260). -/
def listMaxD (l : List Nat) : Nat :=
  l.foldl max 0

/-- The 7 forecast dates (app.py lines 260-261): the 7 consecutive days
starting the day after the given last observed date. -/
def fcIdx (lastObs : Nat) : List Nat :=
  (List.range 7).map (fun i => lastObs + 1 + i)

/-- The per-channel forecast sequences. -/
structure ForecastOutput where
  fcCons : List (Nat × ℚ)
  fcGen : List (Nat × ℚ)
deriving DecidableEq

/-- The forecast tab (app.py lines 250-262).  The two ARIMA model fits
are external calls that can raise; they are modelled as Except-valued
inputs standing for ARIMA(series, order 1 1 1).fit followed by
get_forecast(steps 7), fitCons on dailyCons and fitGen on dailyGen.
The source wraps neither call in any exception handler, so a raised fit
error propagates and aborts the computation of both channels; the
Except bind models exactly that propagation.  Line 262 assigns BOTH
forecast indices the range computed from the consumption series
(daily_cons.index.max() + 1 day, lines 260-261). -/
def forecastTab (dailyCons dailyGen : List (Nat × ℚ))
    (fitCons fitGen : Except String (List ℚ)) : Except String ForecastOutput := do
  let fc1 ← fitCons
  let fc2 ← fitGen
  let idx := fcIdx (listMaxD (dailyCons.map Prod.fst))
  pure ⟨idx.zip fc1, idx.zip fc2⟩

example : headerIdxs [⟨200, []⟩, ⟨300, []⟩, ⟨200, []⟩] = [0, 2] := by decide
example : markerOf [⟨200, ["200", "x", "y", " e1 "]⟩] 0 = "E1" := by decide
example :
    locateBlocks [⟨200, ["200", "", "", "E1"]⟩, ⟨300, []⟩, ⟨200, ["200", "", "", "B1"]⟩, ⟨300, []⟩]
      = .ok ((1, 2), (3, 4)) := by decide
example : parseDate "20240131" = some 20240131 := by decide
example : parseDate "abc" = none := by decide
example : parseRat "1.5" = some (3 / 2 : ℚ) := by with_unfolding_all rfl
example : parseRat "-2" = some (-2 : ℚ) := by with_unfolding_all rfl
example : parseRat "" = none := by with_unfolding_all rfl
example : parseRat "abc" = none := by with_unfolding_all rfl
example : time_headers.length = 48 := by decide
example : time_headers.getD 1 "" = "00:30" := by decide
example : sampleMean [10, 10, 10, 10, 100] = 28 := by norm_num [sampleMean]
example : sampleVar [10, 10, 10, 10, 100] = 1620 := by norm_num [sampleVar, sampleMean]
example : isOutlier [10, 10, 10, 10, 100] 100 = false := by with_unfolding_all rfl
example : outlierDates [(0, 10), (1, 10), (2, 10), (3, 10), (4, 100)] = [] := by
  with_unfolding_all rfl

/-- A raw table with a single record-200 header row. -/
def rawW6 : List RawRow :=
  [⟨200, ["200", "20240101", "1", "E1"]⟩, ⟨300, ["300", "20240101", "1"]⟩]

/-- A raw table whose E1 tag occurs on two header markers (indices 0 and
2, the second in lower case) and whose B1 tag occurs once (index 4). -/
def rawC5 : List RawRow :=
  [⟨200, ["200", "", "", "E1"]⟩, ⟨300, []⟩, ⟨200, ["200", "", "", "e1"]⟩,
   ⟨300, []⟩, ⟨200, ["200", "", "", "B1"]⟩, ⟨300, []⟩]

/-- A raw table with 101 rows whose header markers sit at positions 0,
50 and 100, the scenario of spec section 8. -/
def rawC7 : List RawRow :=
  (List.range 101).map (fun i => ⟨if i = 0 ∨ i = 50 ∨ i = 100 then 200 else 300, []⟩)

theorem locateBlocks_insufficient (raw : List RawRow)
    (h : (headerIdxs raw).length < 2) :
    locateBlocks raw = .error .insufficientHeaders := by
  unfold locateBlocks
  rw [if_pos h]

/-- C6: a RawTable with fewer than two record-200 header markers makes
the whole pipeline fail with insufficientHeaders; no daily series, long
series, aggregates or outlier sets are produced (and the forecast, which
consumes the daily totals, has no input either). -/
theorem insufficient_headers_abort (raw : List RawRow)
    (h : (headerIdxs raw).length < 2) :
    runPipeline raw = .error .insufficientHeaders := by
  unfold runPipeline
  rw [locateBlocks_insufficient raw h]
  rfl

theorem insufficient_headers_abort_witness :
    (headerIdxs rawW6).length < 2 ∧ runPipeline rawW6 = .error .insufficientHeaders :=
  ⟨by decide, insufficient_headers_abort rawW6 (by decide)⟩

theorem tagFold_fst_isSome (raw : List RawRow) (l : List Nat) :
    ∀ acc : Option Nat × Option Nat,
      ((l.foldl (tagStep raw) acc).1.isSome = true ↔
        acc.1.isSome = true ∨ ∃ i ∈ l, markerOf raw i = "E1") := by
  induction l with
  | nil => intro acc; simp
  | cons j t ih =>
      intro acc
      rw [List.foldl_cons, ih]
      unfold tagStep
      by_cases hE : markerOf raw j = "E1"
      · simp [hE]
      · by_cases hB : markerOf raw j = "B1"
        · simp [hE, hB]
        · simp [hE, hB]

theorem tagFold_snd_isSome (raw : List RawRow) (l : List Nat) :
    ∀ acc : Option Nat × Option Nat,
      ((l.foldl (tagStep raw) acc).2.isSome = true ↔
        acc.2.isSome = true ∨ ∃ i ∈ l, markerOf raw i = "B1") := by
  induction l with
  | nil => intro acc; simp
  | cons j t ih =>
      intro acc
      rw [List.foldl_cons, ih]
      unfold tagStep
      by_cases hE : markerOf raw j = "E1"
      · simp [hE]
      · by_cases hB : markerOf raw j = "B1"
        · simp [hE, hB]
        · simp [hE, hB]

/-- C5 counterexample: in rawC5 the E1 tag occurs on two of the three
header markers, yet classification succeeds (the loop keeps the last E1
header), refuting that classification requires exactly one marker per
channel code and fails on duplicates. -/
theorem duplicate_tag_still_classifies :
    ((headerIdxs rawC5).filter (fun i => decide (markerOf rawC5 i = "E1"))).length = 2 ∧
      locateBlocks rawC5 = .ok ((3, 4), (5, 6)) := by decide

/-- C5 amended: under the tagged strategy, once at least two header
markers exist, classification succeeds exactly when the E1 tag occurs on
at least one header marker and the B1 tag occurs on at least one header
marker (the last occurrence of each is used); a duplicated tag does not
make it fail. -/
theorem tagged_classification_success_iff (raw : List RawRow)
    (h2 : 2 ≤ (headerIdxs raw).length) :
    (locateBlocks raw).isOk = true ↔
      ((∃ i ∈ headerIdxs raw, markerOf raw i = "E1") ∧
       (∃ i ∈ headerIdxs raw, markerOf raw i = "B1")) := by
  have hE := tagFold_fst_isSome raw (headerIdxs raw) (none, none)
  have hB := tagFold_snd_isSome raw (headerIdxs raw) (none, none)
  simp only [Option.isSome_none, Bool.false_eq_true, false_or] at hE hB
  unfold locateBlocks
  rw [if_neg (by omega)]
  unfold classifyHeaders
  rcases hcl : (headerIdxs raw).foldl (tagStep raw) (none, none) with ⟨e, b⟩
  rw [hcl] at hE hB
  cases e <;> cases b <;> simp_all [Except.isOk, Except.toBool]

theorem tagged_classification_success_iff_witness :
    2 ≤ (headerIdxs rawC5).length ∧
      ((locateBlocks rawC5).isOk = true ↔
        ((∃ i ∈ headerIdxs rawC5, markerOf rawC5 i = "E1") ∧
         (∃ i ∈ headerIdxs rawC5, markerOf rawC5 i = "B1"))) :=
  ⟨by decide, tagged_classification_success_iff rawC5 (by decide)⟩

/-- C7 counterexample: with header markers at positions 0, 50 and 100,
the positional strategy (as the spec itself defines blocks, start =
header index + 1) yields the generation block [51, 100), not the
[50, 100) stated by the claim. -/
theorem positional_scenario_gen_block :
    positionalBlocks rawC7 = .ok ((1, 50), (51, 100)) ∧
      positionalBlocks rawC7 ≠ .ok ((1, 50), (50, 100)) := by decide

/-- C7 amended: under the positional strategy, whenever at least three
header markers exist, the consumption block is the half-open range from
the first header index + 1 to the second header index, and the
generation block runs from the second header index + 1 to the third
header index; for headers at 0, 50, 100 this is [1, 50) and [51, 100). -/
theorem positional_first_two_headers (raw : List RawRow) (h1 h2 h3 : Nat)
    (rest : List Nat) (h : headerIdxs raw = h1 :: h2 :: h3 :: rest) :
    positionalBlocks raw = .ok ((h1 + 1, h2), (h2 + 1, h3)) := by
  unfold positionalBlocks
  rw [h]

theorem positional_first_two_headers_witness :
    headerIdxs rawC7 = 0 :: 50 :: 100 :: [] ∧
      positionalBlocks rawC7 = .ok ((0 + 1, 50), (50 + 1, 100)) :=
  ⟨by decide, positional_first_two_headers rawC7 0 50 100 [] (by decide)⟩

theorem fillSlots_sum_eq_nonMissing (slots : List (Option ℚ)) :
    (fillSlots slots).sum = (slots.filterMap id).sum := by
  induction slots with
  | nil => rfl
  | cons o t ih =>
      cases o with
      | none => simpa [fillSlots] using ih
      | some v => simpa [fillSlots] using congrArg (fun q => v + q) ih

theorem zip_map_snd {α β : Type} (a : List α) :
    ∀ b : List β, b.length ≤ a.length → (a.zip b).map Prod.snd = b := by
  induction a with
  | nil => intro b hb; simp at hb; simp [hb]
  | cons x t ih =>
      intro b hb
      cases b with
      | nil => simp
      | cons y s => simpa using ih s (by simpa using hb)

theorem rowLong_map_val (r : ReshapedRow) (h : r.slots.length = 48) :
    (rowLong r).map (fun x => x.2.2) = fillSlots r.slots := by
  unfold rowLong
  rw [List.map_map]
  have hc : ((fun x : Nat × String × ℚ => x.2.2) ∘
      fun p : String × ℚ => (r.date.getD 0, p.1, p.2)) = Prod.snd := rfl
  rw [hc]
  apply zip_map_snd
  have : (fillSlots r.slots).length = 48 := by simp [fillSlots, h]
  rw [this]
  decide

theorem rowLong_fst (r : ReshapedRow) (x : Nat × String × ℚ) (hx : x ∈ rowLong r) :
    x.1 = r.date.getD 0 := by
  unfold rowLong at hx
  rcases List.mem_map.mp hx with ⟨p, hp, rfl⟩
  rfl

theorem flatMap_long_sum (d : Nat) :
    ∀ l : List ReshapedRow, (∀ r ∈ l, r.slots.length = 48) →
      (((l.flatMap rowLong).filter (fun x => decide (x.1 = d))).map (fun x => x.2.2)).sum
        = ((l.filter (fun r => decide (r.date.getD 0 = d))).map rowDailyKWh).sum := by
  intro l
  induction l with
  | nil => simp
  | cons r t ih =>
      intro h
      rw [List.flatMap_cons, List.filter_append, List.map_append, List.sum_append,
        ih (fun r0 hr0 => h r0 (List.mem_cons_of_mem r hr0))]
      by_cases hd : r.date.getD 0 = d
      · have hall : (rowLong r).filter (fun x => decide (x.1 = d)) = rowLong r := by
          apply List.filter_eq_self.mpr
          intro x hx
          simp [rowLong_fst r x hx, hd]
        rw [hall, rowLong_map_val r (h r (List.mem_cons_self r t)),
          List.filter_cons_of_pos (by simp [hd])]
        simp [rowDailyKWh]
      · have hnone : (rowLong r).filter (fun x => decide (x.1 = d)) = [] := by
          apply List.filter_eq_nil_iff.mpr
          intro x hx
          simp [rowLong_fst r x hx, hd]
        rw [hnone, List.filter_cons_of_neg (by simp [hd])]
        simp

/-- C1: for a ReshapedBlock (48 interval slots per row) and a retained
date d held by exactly one row r, the sum of the kWh values of the
LongSeries rows whose date is d equals Daily_kWh of r (which is the
DailySeries entry at d), and Daily_kWh equals the sum of the non-missing
interval values of the day (missing cells contribute the zero they were
filled with). -/
theorem daily_total_roundtrip (rows : List ReshapedRow) (d : Nat) (r : ReshapedRow)
    (hlen : ∀ r0 ∈ rows, r0.slots.length = 48)
    (huniq : (keptRows rows).filter (fun r0 => decide (r0.date = some d)) = [r]) :
    longSumAt rows d = rowDailyKWh r ∧ rowDailyKWh r = nonMissingSum r ∧
      (d, rowDailyKWh r, rowDailyAvg r) ∈ prepareDaily rows := by
  have hrmem : r ∈ (keptRows rows).filter (fun r0 => decide (r0.date = some d)) := by
    rw [huniq]; exact List.mem_singleton_self r
  have hrk : r ∈ keptRows rows := (List.mem_filter.mp hrmem).1
  have hrd : r.date = some d := by
    have := (List.mem_filter.mp hrmem).2
    simpa using this
  have hkl : ∀ r0 ∈ keptRows rows, r0.slots.length = 48 := fun r0 hr0 =>
    hlen r0 (List.mem_of_mem_filter hr0)
  have hfc : (keptRows rows).filter (fun r0 => decide (r0.date.getD 0 = d))
      = (keptRows rows).filter (fun r0 => decide (r0.date = some d)) := by
    apply List.filter_congr
    intro r0 hr0
    have hs : r0.date.isSome = true := (List.mem_filter.mp hr0).2
    cases ho : r0.date with
    | none => rw [ho] at hs; simp at hs
    | some a => simp
  refine ⟨?_, ?_, ?_⟩
  · unfold longSumAt prepareLong
    rw [flatMap_long_sum d (keptRows rows) hkl, hfc, huniq]
    simp
  · unfold rowDailyKWh nonMissingSum
    exact fillSlots_sum_eq_nonMissing r.slots
  · unfold prepareDaily
    apply List.mem_map.mpr
    exact ⟨r, hrk, by rw [hrd]; rfl⟩

/-- Concrete one-day block for the C1 witness: date 5, a parsed first
cell, an unparseable (missing) second cell, 46 further parsed cells. -/
def rowsW1 : List ReshapedRow :=
  [⟨some 5, some 1 :: none :: List.replicate 46 (some 2)⟩]

theorem daily_total_roundtrip_witness :
    ((keptRows rowsW1).filter (fun r0 => decide (r0.date = some 5))
        = [⟨some 5, some 1 :: none :: List.replicate 46 (some 2)⟩]) ∧
      (longSumAt rowsW1 5 = rowDailyKWh ⟨some 5, some 1 :: none :: List.replicate 46 (some 2)⟩ ∧
        rowDailyKWh ⟨some 5, some 1 :: none :: List.replicate 46 (some 2)⟩
          = nonMissingSum ⟨some 5, some 1 :: none :: List.replicate 46 (some 2)⟩ ∧
        (5, rowDailyKWh ⟨some 5, some 1 :: none :: List.replicate 46 (some 2)⟩,
          rowDailyAvg ⟨some 5, some 1 :: none :: List.replicate 46 (some 2)⟩) ∈ prepareDaily rowsW1) :=
  ⟨by with_unfolding_all rfl,
    daily_total_roundtrip rowsW1 5 ⟨some 5, some 1 :: none :: List.replicate 46 (some 2)⟩
      (by with_unfolding_all decide) (by with_unfolding_all rfl)⟩

/-- An interval row whose first interval cell (cell index 2, the 00:00
slot) is unparseable. -/
def rawRowC9 : RawRow := ⟨300, ["300", "20240101", "abc", "1.0"]⟩

/-- C9 counterexample: the cell abc fails to parse and becomes missing,
yet its (date, 00:00) pair is NOT dropped during the unpivot: it appears
as a LongSeries row with value 0, because the source fills missing
values with 0 (app.py line 61) before melting, so the dropna on kWh
removes nothing. -/
theorem unparseable_cell_appears_in_long :
    parseRat "abc" = none ∧
      (20240101, "00:00", (0 : ℚ)) ∈ prepareLong [reshapeRow rawRowC9] := by
  constructor
  · with_unfolding_all rfl
  · have h : (prepareLong [reshapeRow rawRowC9]).head? = some (20240101, "00:00", (0 : ℚ)) := by
      with_unfolding_all rfl
    cases hl : prepareLong [reshapeRow rawRowC9] with
    | nil => rw [hl] at h; simp at h
    | cons a t =>
        rw [hl] at h
        simp only [List.head?_cons, Option.some.injEq] at h
        rw [← h]
        exact List.mem_cons_self a t

/-- C9 amended: every (date, time-label) pair of every retained row
appears as a LongSeries row, the unparseable cells included: a cell that
fails to parse is coerced to 0 by fillna before the unpivot, so it
appears with value 0 instead of being dropped. -/
theorem long_rows_zero_filled (rows : List ReshapedRow) (r : ReshapedRow)
    (hr : r ∈ keptRows rows) (hlen : r.slots.length = 48) (i : Nat) (hi : i < 48) :
    (r.date.getD 0, time_headers.getD i "", (r.slots.getD i none).getD 0)
      ∈ prepareLong rows := by
  have thl : time_headers.length = 48 := by decide
  have hfl : (fillSlots r.slots).length = 48 := by simp [fillSlots, hlen]
  have hif : i < (fillSlots r.slots).length := by omega
  have hit : i < time_headers.length := by omega
  have hiz : i < (time_headers.zip (fillSlots r.slots)).length := by
    rw [List.length_zip]; omega
  have his : i < r.slots.length := by omega
  have hfs : (fillSlots r.slots).get ⟨i, hif⟩ = (r.slots.getD i none).getD 0 := by
    simp [fillSlots, List.getD_eq_getElem?_getD, List.getElem?_eq_getElem his]
  have hth : time_headers.get ⟨i, hit⟩ = time_headers.getD i "" := by
    simp [List.getD_eq_getElem?_getD, List.getElem?_eq_getElem hit]
  unfold prepareLong
  apply List.mem_flatMap.mpr
  refine ⟨r, hr, ?_⟩
  unfold rowLong
  apply List.mem_map.mpr
  refine ⟨(time_headers.zip (fillSlots r.slots)).get ⟨i, hiz⟩, List.get_mem _ _ _, ?_⟩
  have hzi : (time_headers.zip (fillSlots r.slots)).get ⟨i, hiz⟩
      = (time_headers.get ⟨i, hit⟩, (fillSlots r.slots).get ⟨i, hif⟩) := by
    simp [List.getElem_zip]
  rw [hzi, hfs, hth]

theorem long_rows_zero_filled_witness :
    ((⟨some 5, some 1 :: none :: List.replicate 46 (some 2)⟩ : ReshapedRow) ∈ keptRows rowsW1) ∧
      ((5 : Nat), time_headers.getD 1 "",
          (((some 1 :: none :: List.replicate 46 (some (2 : ℚ))).getD 1 none).getD 0))
        ∈ prepareLong rowsW1 := by
  refine ⟨by with_unfolding_all decide, ?_⟩
  exact long_rows_zero_filled rowsW1 ⟨some 5, some 1 :: none :: List.replicate 46 (some 2)⟩
    (by with_unfolding_all decide) (by with_unfolding_all rfl) 1 (by decide)

/-- C10: the derived daily average always equals the daily total over
exactly 48, because unparseable or blank cells are coerced to zero
before both the sum and the mean; the mean denominator is the full
column count, never the count of observed slots. -/
theorem daily_avg_eq_total_div_48 (rows : List ReshapedRow)
    (hlen : ∀ r ∈ rows, r.slots.length = 48) :
    ∀ e ∈ prepareDaily rows, e.2.2 = e.2.1 / 48 := by
  intro e he
  unfold prepareDaily at he
  rcases List.mem_map.mp he with ⟨r, hr, rfl⟩
  have h48 : r.slots.length = 48 := hlen r (List.mem_of_mem_filter hr)
  unfold rowDailyAvg rowDailyKWh
  simp [fillSlots, h48]

theorem daily_avg_eq_total_div_48_witness :
    (∀ r ∈ rowsW1, r.slots.length = 48) ∧
      ∀ e ∈ prepareDaily rowsW1, e.2.2 = e.2.1 / 48 :=
  ⟨by decide, daily_avg_eq_total_div_48 rowsW1 (by decide)⟩

/-- C8: for every non-empty LongSeries the time-of-day average table
has exactly 48 entries, one per canonical half-hour label in the fixed
canonical order, and a label with no observations is preserved as a
missing entry rather than dropped. -/
theorem tou_average_forty_eight (long : List (Nat × String × ℚ)) (hne : long ≠ []) :
    (timeOfDayAvg long).length = 48 ∧
      (timeOfDayAvg long).map Prod.fst = time_headers ∧
      ∀ t ∈ time_headers, (∀ x ∈ long, x.2.1 ≠ t) →
        (t, (none : Option ℚ)) ∈ timeOfDayAvg long := by
  refine ⟨?_, ?_, ?_⟩
  · unfold timeOfDayAvg
    rw [List.length_map]
    decide
  · unfold timeOfDayAvg
    rw [List.map_map]
    have hc : (Prod.fst ∘ fun t => (t, groupMean long t)) = id := rfl
    rw [hc, List.map_id]
  · intro t ht hno
    unfold timeOfDayAvg
    apply List.mem_map.mpr
    refine ⟨t, ht, ?_⟩
    have hgm : groupMean long t = none := by
      unfold groupMean
      have hemp : long.filter (fun x => decide (x.2.1 = t)) = [] :=
        List.filter_eq_nil_iff.mpr (fun a ha => by simp [hno a ha])
      simp [hemp]
    rw [hgm]

/-- A one-row LongSeries for the C8 witness. -/
def longW8 : List (Nat × String × ℚ) := [(5, "00:00", 7)]

theorem tou_average_forty_eight_witness :
    longW8 ≠ [] ∧
      ((timeOfDayAvg longW8).length = 48 ∧
        (timeOfDayAvg longW8).map Prod.fst = time_headers ∧
        ∀ t ∈ time_headers, (∀ x ∈ longW8, x.2.1 ≠ t) →
          (t, (none : Option ℚ)) ∈ timeOfDayAvg longW8) :=
  ⟨by decide, tou_average_forty_eight longW8 (by decide)⟩

/-- C2 counterexample: for the daily-total series [10,10,10,10,100] no
day is flagged at all — the sample standard deviation is the square root
of 1620 (about 40.25), so the z-score of the value 100 is about 1.79,
well under 3 — refuting that the day with value 100 is flagged. -/
theorem outlier_scenario_not_flagged :
    isOutlier [10, 10, 10, 10, 100] 100 = false ∧
      outlierDates [(0, 10), (1, 10), (2, 10), (3, 10), (4, 100)] = [] := by
  constructor <;> with_unfolding_all rfl

theorem sampleVar_nonneg (xs : List ℚ) : 0 ≤ sampleVar xs := by
  unfold sampleVar
  apply div_nonneg
  · apply List.sum_nonneg
    intro x hx
    rcases List.mem_map.mp hx with ⟨y, hy, rfl⟩
    positivity
  · positivity

/-- C2 amended: a day is flagged exactly when the absolute deviation of
its value from the sample mean exceeds 3 times the sample standard
deviation, i.e. exactly when the absolute z-score exceeds 3 (the
squared form computed by isOutlier is equivalent to the square-root
form); however, for the daily-total series [10,10,10,10,100] no day is
flagged, the day with value 100 included. -/
theorem outlier_iff_abs_z_gt_three :
    (∀ (xs : List ℚ) (v : ℚ), isOutlier xs v = true ↔
        3 * Real.sqrt ((sampleVar xs : ℚ) : ℝ)
          < |((v : ℚ) : ℝ) - ((sampleMean xs : ℚ) : ℝ)|) ∧
      outlierDates [(0, 10), (1, 10), (2, 10), (3, 10), (4, 100)] = [] := by
  constructor
  · intro xs v
    have key : ∀ s d : ℝ, 0 ≤ s → (9 * s < d ^ 2 ↔ 3 * Real.sqrt s < |d|) := by
      intro s d hs0
      have h9 : Real.sqrt (9 * s) = 3 * Real.sqrt s := by
        rw [Real.sqrt_mul (by norm_num : (0 : ℝ) ≤ 9)]
        have h3 : Real.sqrt 9 = 3 := by
          rw [show (9 : ℝ) = 3 ^ 2 by norm_num, Real.sqrt_sq (by norm_num)]
        rw [h3]
      constructor
      · intro h
        have hmono := Real.sqrt_lt_sqrt (by positivity) h
        rwa [Real.sqrt_sq_eq_abs, h9] at hmono
      · intro h
        have hd : 0 < |d| := lt_of_le_of_lt (by positivity) h
        have h2 := (Real.sqrt_lt' hd).mp (by rwa [h9])
        rwa [sq_abs] at h2
    have hs : (0 : ℝ) ≤ ((sampleVar xs : ℚ) : ℝ) := by
      exact_mod_cast sampleVar_nonneg xs
    have hcast : (9 * sampleVar xs < (v - sampleMean xs) ^ 2)
        ↔ ((9 : ℝ) * ((sampleVar xs : ℚ) : ℝ)
            < (((v : ℚ) : ℝ) - ((sampleMean xs : ℚ) : ℝ)) ^ 2) :=
      ⟨fun h => by exact_mod_cast h, fun h => by exact_mod_cast h⟩
    unfold isOutlier
    rw [decide_eq_true_iff, hcast,
      key ((sampleVar xs : ℚ) : ℝ) (((v : ℚ) : ℝ) - ((sampleMean xs : ℚ) : ℝ)) hs]
  · with_unfolding_all rfl

/-- C3: the source calls the two ARIMA fits with no exception handling
(app.py lines 255-258): a fit failure on either channel propagates as
the raw error and aborts the whole forecast computation, producing no
forecast output for either channel, instead of being caught and
surfaced as a per-channel unavailable marker. -/
theorem forecast_fit_error_propagates :
    (∀ (dc dg : List (Nat × ℚ)) (msg : String) (g : Except String (List ℚ)),
        forecastTab dc dg (.error msg) g = .error msg) ∧
      (∀ (dc dg : List (Nat × ℚ)) (f : List ℚ) (msg : String),
        forecastTab dc dg (.ok f) (.error msg) = .error msg) := by
  exact ⟨fun dc dg msg g => rfl, fun dc dg f msg => rfl⟩

/-- Daily consumption series for the C4 counterexample: last date 12. -/
def dConsC4 : List (Nat × ℚ) := [(10, 5), (11, 6), (12, 7)]

/-- Daily generation series for the C4 counterexample: its own last
date is 14. -/
def dGenC4 : List (Nat × ℚ) := [(10, 1), (11, 1), (12, 1), (13, 1), (14, 1)]

/-- C4 counterexample: with consumption ending at day 12 and generation
ending at day 14, the generation forecast dates run 13..19 — starting
the day after the consumption channel ends — not 15..21, the days after
the generation channel itself ends, refuting that each channel's
forecast dates start after its own last observed date. -/
theorem forecast_gen_dates_from_cons :
    (forecastTab dConsC4 dGenC4 (.ok [1, 1, 1, 1, 1, 1, 1]) (.ok [1, 1, 1, 1, 1, 1, 1])).map
        (fun o => o.fcGen.map Prod.fst) = .ok [13, 14, 15, 16, 17, 18, 19] ∧
      listMaxD (dGenC4.map Prod.fst) + 1 = 15 ∧ (13 : Nat) ≠ 15 :=
  ⟨by with_unfolding_all rfl, by with_unfolding_all rfl, by decide⟩

theorem zip_map_fst {α β : Type} :
    ∀ (a : List α) (b : List β), a.length ≤ b.length → (a.zip b).map Prod.fst = a := by
  intro a
  induction a with
  | nil => intro b hb; simp
  | cons x t ih =>
      intro b hb
      cases b with
      | nil => simp at hb
      | cons y s => simpa using ih s (by simpa using hb)

/-- C4 amended: when both model fits succeed with 7 predictions each,
each channel's forecast output is exactly 7 (date, value) pairs, and the
dates of BOTH channels are the 7 consecutive calendar days starting the
day after the consumption channel's last observed date (the generation
index is overwritten with the consumption-based range at app.py line
262). -/
theorem forecast_seven_consecutive_days (dc dg : List (Nat × ℚ)) (f1 f2 : List ℚ)
    (h1 : f1.length = 7) (h2 : f2.length = 7) :
    ∃ out, forecastTab dc dg (.ok f1) (.ok f2) = .ok out ∧
      out.fcCons.length = 7 ∧ out.fcGen.length = 7 ∧
      out.fcCons.map Prod.fst = fcIdx (listMaxD (dc.map Prod.fst)) ∧
      out.fcGen.map Prod.fst = fcIdx (listMaxD (dc.map Prod.fst)) ∧
      fcIdx (listMaxD (dc.map Prod.fst)) =
        [listMaxD (dc.map Prod.fst) + 1, listMaxD (dc.map Prod.fst) + 2,
         listMaxD (dc.map Prod.fst) + 3, listMaxD (dc.map Prod.fst) + 4,
         listMaxD (dc.map Prod.fst) + 5, listMaxD (dc.map Prod.fst) + 6,
         listMaxD (dc.map Prod.fst) + 7] := by
  have hil : (fcIdx (listMaxD (dc.map Prod.fst))).length = 7 := by
    simp [fcIdx]
  refine ⟨⟨(fcIdx (listMaxD (dc.map Prod.fst))).zip f1,
    (fcIdx (listMaxD (dc.map Prod.fst))).zip f2⟩, rfl, ?_, ?_, ?_, ?_, ?_⟩
  · rw [List.length_zip, hil, h1]; rfl
  · rw [List.length_zip, hil, h2]; rfl
  · exact zip_map_fst _ f1 (by omega)
  · exact zip_map_fst _ f2 (by omega)
  · rfl

theorem forecast_seven_consecutive_days_witness :
    ([(1 : ℚ), 1, 1, 1, 1, 1, 1].length = 7) ∧
      (∃ out, forecastTab dConsC4 dGenC4 (.ok [1, 1, 1, 1, 1, 1, 1]) (.ok [1, 1, 1, 1, 1, 1, 1])
          = .ok out ∧
        out.fcCons.length = 7 ∧ out.fcGen.length = 7 ∧
        out.fcCons.map Prod.fst = fcIdx (listMaxD (dConsC4.map Prod.fst)) ∧
        out.fcGen.map Prod.fst = fcIdx (listMaxD (dConsC4.map Prod.fst)) ∧
        fcIdx (listMaxD (dConsC4.map Prod.fst)) =
          [listMaxD (dConsC4.map Prod.fst) + 1, listMaxD (dConsC4.map Prod.fst) + 2,
           listMaxD (dConsC4.map Prod.fst) + 3, listMaxD (dConsC4.map Prod.fst) + 4,
           listMaxD (dConsC4.map Prod.fst) + 5, listMaxD (dConsC4.map Prod.fst) + 6,
           listMaxD (dConsC4.map Prod.fst) + 7]) :=
  ⟨by decide,
    forecast_seven_consecutive_days dConsC4 dGenC4 [1, 1, 1, 1, 1, 1, 1] [1, 1, 1, 1, 1, 1, 1]
      (by decide) (by decide)⟩
